import Mathlib

/-!
Shallow embedding of the Flower Shop signup/product backend
(`signup.py`, `product.py`).

Modelling choices:

* Each on-disk JSON store file is a `FileState`: `missing` (the file does
  not exist), `corrupt` (present but `json.load` raises
  `JSONDecodeError`), or `valid d` (present and parses to the document
  `d` of the store's shape).
* A Python `dict` keyed by email is an insertion-ordered association
  list `DMap β = List (String × β)`; `dlookup` finds the first binding,
  `dinsert` models `d[k] = v` (replace in place, else append at the
  end), `derase` models `del d[k]` (remove the key's binding; Python
  dicts have unique keys, so removing every binding of the key is the
  same operation on reachable states).
* `time.time()` values (floats) are modelled as exact rationals `ℚ`;
  Python `int(x)` (truncation toward zero) is `pyInt`.
* `random.choices` / `uuid.uuid4` results are passed in as explicit
  arguments (`otp`, `newId`): the operations are deterministic in them.
* Each FastAPI handler becomes a pure function from the file-system
  state `FS` (plus its inputs) to the new `FS` paired with
  `Except ApiErr` of the success payload; `raise HTTPException`
  is `Except.error` of the constructor for that raise site, which
  records the source's `status_code` and `detail`.
* Strings are treated at the ASCII level: Lean's `Char.isUpper`,
  `Char.isLower`, `Char.isDigit`, `Char.isAlpha` coincide with Python's
  `[A-Z]`, `[a-z]`, `\d`, `\w` on ASCII characters, which covers every
  concrete input appearing below.
-/

/-- Parsed state of one on-disk JSON store file: absent, unparseable
(`json.JSONDecodeError`), or a well-formed document of the store's shape. -/
inductive FileState (α : Type) where
  | missing : FileState α
  | corrupt : FileState α
  | valid : α → FileState α
deriving DecidableEq

/-- An insertion-ordered string-keyed mapping (a Python `dict`). -/
abbrev DMap (β : Type) := List (String × β)

/-- `d.get(k)` / `d[k]`: the value at the first binding of `k`. -/
def dlookup {β : Type} (m : DMap β) (k : String) : Option β :=
  match m with
  | [] => none
  | (k₀, v) :: rest => if k₀ = k then some v else dlookup rest k

/-- `d[k] = v`: replace the binding of `k` in place, else append `(k, v)`
at the end (Python dicts preserve insertion order). -/
def dinsert {β : Type} (m : DMap β) (k : String) (v : β) : DMap β :=
  match m with
  | [] => [(k, v)]
  | (k₀, v₀) :: rest =>
      if k₀ = k then (k, v) :: rest else (k₀, v₀) :: dinsert rest k v

/-- `del d[k]`: remove the binding of `k` (keys are unique in a dict, so
filtering every binding of `k` is the same operation). -/
def derase {β : Type} (m : DMap β) (k : String) : DMap β :=
  m.filter (fun p => p.1 != k)

/-- Account record stored in `users.json` (keyed by email). -/
structure Account where
  id : String
  name : String
  email : String
  password : String
  verified : Bool
deriving DecidableEq

/-- Pending-OTP record stored in `otps.json` (keyed by email):
the 6-digit code and its issue time (`issuedAt` in the spec). -/
structure PendingOTP where
  otp : String
  timestamp : ℚ
deriving DecidableEq

/-- Product record stored in `products.json`. -/
structure Product where
  id : String
  name : String
  price : ℚ
  categories : String
  page : String
  image : String
deriving DecidableEq

/-- Request body of `POST /signup`. -/
structure UserCreate where
  name : String
  email : String
  password : String

/-- Request body of `POST /verify-otp`. -/
structure OTPVerify where
  email : String
  otp : String

/-- Request body of `POST /resend-otp`. -/
structure ResendRequest where
  email : String

/-- Request body of `POST /login`. -/
structure UserLogin where
  email : String
  password : String

/-- Request body of `POST /product`. -/
structure ProductCreate where
  name : String
  price : ℚ
  categories : String
  page : String
  image : String

/-- The `raise HTTPException` sites of `signup.py` and `product.py`,
one constructor per site. -/
inductive ApiErr where
  | userAlreadyExists : ApiErr
  | invalidEmail : ApiErr
  | weakPassword : ApiErr
  | noOtpFound : ApiErr
  | invalidOtp : ApiErr
  | noSignupFound : ApiErr
  | waitBeforeResend : Int → ApiErr
  | userNotFound : ApiErr
  | emailNotVerified : ApiErr
  | incorrectPassword : ApiErr
  | priceNotPositive : ApiErr
deriving DecidableEq

/-- The `status_code` each raise site passes to `HTTPException`. -/
def ApiErr.status : ApiErr → Nat
  | .userAlreadyExists => 409
  | .invalidEmail => 400
  | .weakPassword => 400
  | .noOtpFound => 404
  | .invalidOtp => 400
  | .noSignupFound => 404
  | .waitBeforeResend _ => 403
  | .userNotFound => 404
  | .emailNotVerified => 404
  | .incorrectPassword => 404
  | .priceNotPositive => 400

/-- The `detail` string each raise site passes to `HTTPException`. -/
def ApiErr.detail : ApiErr → String
  | .userAlreadyExists => "User already exists."
  | .invalidEmail => "Invalid email."
  | .weakPassword => "Weak password."
  | .noOtpFound => "No OTP found for this email."
  | .invalidOtp => "Invalid OTP."
  | .noSignupFound => "No signup found for this email."
  | .waitBeforeResend r =>
      "Wait " ++ toString r ++ " seconds before resending OTP."
  | .userNotFound => "user not found."
  | .emailNotVerified => "Email not verified. Please verify OTP first."
  | .incorrectPassword => "incorrect password"
  | .priceNotPositive => "price must be greater than 0"

/-- The three on-disk stores: `users.json`, `otps.json`, `products.json`. -/
structure FS where
  usersFile : FileState (DMap Account)
  otpsFile : FileState (DMap PendingOTP)
  productsFile : FileState (List Product)
deriving DecidableEq

/-- `load_data`: return `{}` when the file does not exist or fails to
parse, else the parsed document (`signup.py`, lines 55–71). -/
def load_data {β : Type} (f : FileState (DMap β)) : DMap β :=
  match f with
  | .missing => []
  | .corrupt => []
  | .valid d => d

/-- `load_products`: return `[]` when the file does not exist or fails to
parse, else the parsed list (`product.py`, lines 40–54). -/
def load_products (f : FileState (List Product)) : List Product :=
  match f with
  | .missing => []
  | .corrupt => []
  | .valid d => d

/-- Replace the users store file (a `save_data(USERS_FILE, ...)`). -/
def FS.saveUsers (fs : FS) (d : DMap Account) : FS :=
  ⟨.valid d, fs.otpsFile, fs.productsFile⟩

/-- Replace the otps store file (a `save_data(OTPS_FILE, ...)`). -/
def FS.saveOtps (fs : FS) (d : DMap PendingOTP) : FS :=
  ⟨fs.usersFile, .valid d, fs.productsFile⟩

/-- Replace the products store file (a `save_products(...)`). -/
def FS.saveProducts (fs : FS) (l : List Product) : FS :=
  ⟨fs.usersFile, fs.otpsFile, .valid l⟩

/-- Python `\w` on ASCII: letters, digits, underscore. -/
def isWordChar (c : Char) : Bool :=
  c.isAlpha || c.isDigit || c = '_'

/-- The character class `[\w\.-]` of the email regex. -/
def isLocalChar (c : Char) : Bool :=
  isWordChar c || c = '.' || c = '-'

/-- Split a list at the first occurrence of `sep`: `some (a, b)` with
`cs = a ++ sep :: b` and `sep ∉ a`, or `none` when `sep ∉ cs`. -/
def breakAt (sep : Char) : List Char → Option (List Char × List Char)
  | [] => none
  | c :: rest =>
      if c = sep then some ([], rest)
      else
        match breakAt sep rest with
        | none => none
        | some (a, b) => some (c :: a, b)

/-- Anchored match of the regex `[\w\.-]+@[\w\.-]+\.\w+` against the
whole list. Since `@` is in none of the classes, the pattern's `@` can
only match the first `@`; since `\w` excludes `.`, the pattern's `\.`
can only match the last `.` after the `@` — found by splitting the
reversed tail at its first `.`. -/
def emailCore (cs : List Char) : Bool :=
  match breakAt '@' cs with
  | none => false
  | some (lo, rest) =>
      !lo.isEmpty && lo.all isLocalChar &&
        match breakAt '.' rest.reverse with
        | none => false
        | some (tR, bR) =>
            !tR.isEmpty && !bR.isEmpty &&
              tR.all isWordChar && bR.all isLocalChar

/-- Python `re.match` with a pattern ending in `$` (no `re.MULTILINE`):
`$` matches at the end of the string or just before a newline at the
end of the string, so the anchored core may also stop one short of a
final `'\n'`. -/
def pyDollarMatch (core : List Char → Bool) (cs : List Char) : Bool :=
  core cs || (cs.getLast? == some '\n' && core cs.dropLast)

/-- `is_valid_email`: `bool(re.match(r"^[\w\.-]+@[\w\.-]+\.\w+$", email))`
(`signup.py`, lines 86–96). -/
def is_valid_email (email : String) : Bool :=
  pyDollarMatch emailCore email.data

/-- `is_strong_password`: length at least 8 and `re.search` finds an
uppercase letter, a lowercase letter, and a digit
(`signup.py`, lines 99–114). -/
def is_strong_password (password : String) : Bool :=
  decide (password.length ≥ 8) &&
    password.data.any Char.isUpper &&
    password.data.any Char.isLower &&
    password.data.any Char.isDigit

/-- Python `int()` on a rational: truncation toward zero. -/
def pyInt (q : ℚ) : Int :=
  if 0 ≤ q then ⌊q⌋ else ⌈q⌉

/-- `POST /signup` (`signup.py`, lines 127–167). `newId` is the
`uuid.uuid4()` result, `otp` the `generate_otp()` result, `now` the
`time.time()` result. -/
def signup (newId otp : String) (now : ℚ) (user : UserCreate) (fs : FS) :
    FS × Except ApiErr String :=
  let users := load_data fs.usersFile
  let otps := load_data fs.otpsFile
  if (dlookup users user.email).isSome then
    (fs, .error .userAlreadyExists)
  else if !is_valid_email user.email then
    (fs, .error .invalidEmail)
  else if !is_strong_password user.password then
    (fs, .error .weakPassword)
  else
    let users' := dinsert users user.email
      ⟨newId, user.name, user.email, user.password, false⟩
    let fs₁ := fs.saveUsers users'
    let otps' := dinsert otps user.email ⟨otp, now⟩
    let fs₂ := fs₁.saveOtps otps'
    (fs₂, .ok "User registered. OTP sent to console.")

/-- `POST /verify-otp` (`signup.py`, lines 170–197). -/
def verify_otp (data : OTPVerify) (fs : FS) : FS × Except ApiErr String :=
  let otps := load_data fs.otpsFile
  match dlookup otps data.email with
  | none => (fs, .error .noOtpFound)
  | some entry =>
      if entry.otp ≠ data.otp then
        (fs, .error .invalidOtp)
      else
        let fs₁ := fs.saveOtps (derase otps data.email)
        let users := load_data fs₁.usersFile
        match dlookup users data.email with
        | none => (fs₁, .ok "OTP verified successfully. User is now verified.")
        | some u =>
            let users' := dinsert users data.email
              ⟨u.id, u.name, u.email, u.password, true⟩
            (fs₁.saveUsers users',
              .ok "OTP verified successfully. User is now verified.")

/-- `POST /resend-otp` (`signup.py`, lines 200–232). `otp` is the fresh
`generate_otp()` result, `now` the `time.time()` result. -/
def resend_otp (otp : String) (now : ℚ) (data : ResendRequest) (fs : FS) :
    FS × Except ApiErr String :=
  let otps := load_data fs.otpsFile
  match dlookup otps data.email with
  | none => (fs, .error .noSignupFound)
  | some entry =>
      let elapsed := now - entry.timestamp
      if elapsed < 300 then
        (fs, .error (.waitBeforeResend (pyInt (300 - elapsed))))
      else
        (fs.saveOtps (dinsert otps data.email ⟨otp, now⟩),
          .ok "OTP resent. Check console.")

/-- `POST /login` (`signup.py`, lines 234–262). -/
def login (data : UserLogin) (fs : FS) : FS × Except ApiErr String :=
  let users := load_data fs.usersFile
  match dlookup users data.email with
  | none => (fs, .error .userNotFound)
  | some user =>
      if !user.verified then
        (fs, .error .emailNotVerified)
      else if user.password ≠ data.password then
        (fs, .error .incorrectPassword)
      else
        (fs, .ok ("Login successful. welcome " ++ user.name ++ "!"))

/-- `POST /product` (`product.py`, lines 79–107). `newId` is the
`uuid.uuid4()` result. -/
def add_product (newId : String) (product : ProductCreate) (fs : FS) :
    FS × Except ApiErr Product :=
  if product.price ≤ 0 then
    (fs, .error .priceNotPositive)
  else
    let products := load_products fs.productsFile
    let np : Product :=
      ⟨newId, product.name, product.price, product.categories,
        product.page, product.image⟩
    (fs.saveProducts (products ++ [np]), .ok np)

/-- The email shape stated by the claim, written from the spec's words:
a nonempty local part over word characters, dots and hyphens, an `@`
separator, a nonempty domain over the same class, and a final dot
followed by a nonempty run of word characters, together making up the
whole string. -/
def EmailShape (cs : List Char) : Prop :=
  ∃ a b t : List Char,
    cs = a ++ '@' :: (b ++ '.' :: t) ∧
    a ≠ [] ∧ b ≠ [] ∧ t ≠ [] ∧
    (∀ c ∈ a, isLocalChar c = true) ∧
    (∀ c ∈ b, isLocalChar c = true) ∧
    (∀ c ∈ t, isWordChar c = true)

/-- Fixture: an OTP store holding one pending OTP for `a@b.c`,
code `123456`, issued at time 0. -/
def otpStoreA : DMap PendingOTP := [("a@b.c", ⟨"123456", 0⟩)]

/-- Fixture: file system whose OTP store is `otpStoreA` and whose other
store files do not exist. -/
def fsA : FS := ⟨.missing, .valid otpStoreA, .missing⟩

/-- Fixture: Alice's account, not yet verified. -/
def alice : Account := ⟨"u-1", "Alice", "alice@shop.com", "Abcdefg1", false⟩

/-- Fixture: Alice's account, verified. -/
def aliceVerified : Account := ⟨"u-1", "Alice", "alice@shop.com", "Abcdefg1", true⟩

/-- Fixture: file system with an unverified account for Alice. -/
def fsUnverified : FS := ⟨.valid [("alice@shop.com", alice)], .missing, .missing⟩

/-- Fixture: file system with a verified account for Alice. -/
def fsVerified : FS := ⟨.valid [("alice@shop.com", aliceVerified)], .missing, .missing⟩

/-- Fixture: file system right after Alice's signup — an unverified
account and a pending OTP `654321` issued at time 10. -/
def fsSignup : FS :=
  ⟨.valid [("alice@shop.com", alice)],
    .valid [("alice@shop.com", ⟨"654321", 10⟩)], .missing⟩

/-- Fixture: an account whose stored email key is not a valid email and
whose password is weak — signup on this key must still be a conflict. -/
def bob : Account := ⟨"u-2", "Bob", "weird key", "x", false⟩

/-- Fixture: file system whose users store holds `bob` under the
non-email key `"weird key"`. -/
def fsWeird : FS := ⟨.valid [("weird key", bob)], .missing, .missing⟩

/-! ## Helper lemmas -/

theorem load_data_valid {β : Type} (d : DMap β) : load_data (.valid d) = d := rfl

theorem usersFile_saveOtps (fs : FS) (d : DMap PendingOTP) :
    (fs.saveOtps d).usersFile = fs.usersFile := rfl

theorem otpsFile_saveOtps (fs : FS) (d : DMap PendingOTP) :
    (fs.saveOtps d).otpsFile = .valid d := rfl

theorem otpsFile_saveUsers (fs : FS) (d : DMap Account) :
    (fs.saveUsers d).otpsFile = fs.otpsFile := rfl

theorem usersFile_saveUsers (fs : FS) (d : DMap Account) :
    (fs.saveUsers d).usersFile = .valid d := rfl

theorem dlookup_dinsert_self {β : Type} (m : DMap β) (k : String) (v : β) :
    dlookup (dinsert m k v) k = some v := by
  induction m with
  | nil => simp [dinsert, dlookup]
  | cons p rest ih =>
      by_cases h : p.1 = k
      · simp [dinsert, dlookup, h]
      · simp [dinsert, dlookup, h, ih]

theorem dlookup_derase_self {β : Type} (m : DMap β) (k : String) :
    dlookup (derase m k) k = none := by
  induction m with
  | nil => simp [derase, dlookup]
  | cons p rest ih =>
      obtain ⟨k₀, v⟩ := p
      by_cases h : k₀ = k
      · simpa [derase, List.filter_cons, h] using ih
      · simpa [derase, List.filter_cons, h, dlookup] using ih

theorem pyInt_eq_floor {q : ℚ} (h : 0 ≤ q) : pyInt q = ⌊q⌋ := by
  simp [pyInt, h]

theorem breakAt_append {sep : Char} {a : List Char} (b : List Char)
    (h : sep ∉ a) : breakAt sep (a ++ sep :: b) = some (a, b) := by
  induction a with
  | nil => simp [breakAt]
  | cons c rest ih =>
      have hc : c ≠ sep := by
        intro hcs
        exact h (hcs ▸ List.mem_cons_self c rest)
      have hrest : sep ∉ rest := fun hm => h (List.mem_cons_of_mem c hm)
      simp [breakAt, hc, ih hrest]

theorem breakAt_some {sep : Char} :
    ∀ {cs a b : List Char}, breakAt sep cs = some (a, b) →
      cs = a ++ sep :: b ∧ sep ∉ a := by
  intro cs
  induction cs with
  | nil => intro a b h; simp [breakAt] at h
  | cons c rest ih =>
      intro a b h
      by_cases hc : c = sep
      · subst hc
        simp only [breakAt, if_pos rfl, Option.some.injEq, Prod.mk.injEq] at h
        obtain ⟨rfl, rfl⟩ := h
        simp
      · simp only [breakAt, if_neg hc] at h
        cases hb : breakAt sep rest with
        | none => rw [hb] at h; simp at h
        | some p =>
            obtain ⟨a₂, b₂⟩ := p
            rw [hb] at h
            simp only [Option.some.injEq, Prod.mk.injEq] at h
            obtain ⟨rfl, rfl⟩ := h
            obtain ⟨hrest, hnot⟩ := ih hb
            constructor
            · simp [hrest]
            · intro hm
              rcases List.mem_cons.mp hm with h₁ | h₁
              · exact hc h₁.symm
              · exact hnot h₁

theorem breakAt_none {sep : Char} :
    ∀ {cs : List Char}, breakAt sep cs = none → sep ∉ cs := by
  intro cs
  induction cs with
  | nil => intro _; simp
  | cons c rest ih =>
      intro h
      by_cases hc : c = sep
      · simp [breakAt, hc] at h
      · simp only [breakAt, if_neg hc] at h
        cases hb : breakAt sep rest with
        | none =>
            intro hm
            rcases List.mem_cons.mp hm with h₁ | h₁
            · exact hc h₁.symm
            · exact ih hb h₁
        | some p => rw [hb] at h; simp at h

theorem isLocalChar_at : isLocalChar '@' = false := by decide

theorem isWordChar_dot : isWordChar '.' = false := by decide

theorem emailCore_eq_true_iff (cs : List Char) :
    emailCore cs = true ↔ EmailShape cs := by
  constructor
  · intro h
    unfold emailCore at h
    cases h₁ : breakAt '@' cs with
    | none => simp only [h₁] at h; simp at h
    | some p =>
        obtain ⟨lo, rest⟩ := p
        simp only [h₁] at h
        obtain ⟨hcs, _⟩ := breakAt_some h₁
        cases h₂ : breakAt '.' rest.reverse with
        | none => simp only [h₂, Bool.and_false] at h; simp at h
        | some q =>
            obtain ⟨tR, bR⟩ := q
            simp only [h₂, Bool.and_eq_true, Bool.not_eq_true',
              List.isEmpty_eq_false, List.all_eq_true, and_assoc] at h
            obtain ⟨hlo, hloc, htR, hbR, htw, hbl⟩ := h
            obtain ⟨hrev, _⟩ := breakAt_some h₂
            have hrest : rest = bR.reverse ++ '.' :: tR.reverse := by
              have h₃ := congrArg List.reverse hrev
              simpa [List.reverse_append] using h₃
            refine ⟨lo, bR.reverse, tR.reverse, ?_, hlo, ?_, ?_, hloc, ?_, ?_⟩
            · rw [hcs, hrest]
            · simpa using hbR
            · simpa using htR
            · intro c hc
              exact hbl c (List.mem_reverse.mp hc)
            · intro c hc
              exact htw c (List.mem_reverse.mp hc)
  · rintro ⟨a, b, t, rfl, ha, hb, ht, hal, hbl, htw⟩
    have hna : '@' ∉ a := by
      intro hm
      have h₁ := hal _ hm
      rw [isLocalChar_at] at h₁
      exact Bool.false_ne_true h₁
    have hnt : '.' ∉ t.reverse := by
      intro hm
      have h₁ := htw _ (List.mem_reverse.mp hm)
      rw [isWordChar_dot] at h₁
      exact Bool.false_ne_true h₁
    have hrev : (b ++ '.' :: t).reverse = t.reverse ++ '.' :: b.reverse := by
      simp [List.reverse_append]
    unfold emailCore
    simp only [breakAt_append (b ++ '.' :: t) hna, hrev,
      breakAt_append b.reverse hnt, Bool.and_eq_true, Bool.not_eq_true',
      List.isEmpty_eq_false, List.all_eq_true, and_assoc]
    refine ⟨ha, hal, by simpa using ht, by simpa using hb, ?_, ?_⟩
    · intro c hc
      exact htw c (List.mem_reverse.mp hc)
    · intro c hc
      exact hbl c (List.mem_reverse.mp hc)

theorem getLast?_split {cs : List Char} (h : cs.getLast? = some '\n') :
    cs = cs.dropLast ++ ['\n'] := by
  cases cs with
  | nil => simp at h
  | cons c rest =>
      have hne : c :: rest ≠ [] := by simp
      rw [List.getLast?_eq_getLast _ hne, Option.some.injEq] at h
      conv_lhs => rw [← List.dropLast_concat_getLast hne]
      rw [h]

/-! ## Claim theorems -/

/-- Claim C6: `load_data` and `load_products` return the empty mapping
(resp. empty list) on a missing store file and on an unparseable one;
both loaders are total functions of the file state, so no error ever
reaches the caller. -/
theorem load_missing_or_corrupt_is_empty :
    load_data (FileState.missing : FileState (DMap Account)) = [] ∧
    load_data (FileState.corrupt : FileState (DMap Account)) = [] ∧
    load_data (FileState.missing : FileState (DMap PendingOTP)) = [] ∧
    load_data (FileState.corrupt : FileState (DMap PendingOTP)) = [] ∧
    load_products FileState.missing = [] ∧
    load_products FileState.corrupt = [] :=
  ⟨rfl, rfl, rfl, rfl, rfl, rfl⟩

/-- Claim C8: `is_strong_password` returns true iff the password has
length at least 8 and contains an uppercase letter, a lowercase letter
and a digit; together with the spec's five concrete examples. -/
theorem is_strong_password_iff :
    (∀ s : String, is_strong_password s = true ↔
      (8 ≤ s.length ∧ (∃ c ∈ s.data, c.isUpper = true) ∧
        (∃ c ∈ s.data, c.isLower = true) ∧ (∃ c ∈ s.data, c.isDigit = true))) ∧
    is_strong_password "Abcdefg1" = true ∧
    is_strong_password "abcdefg1" = false ∧
    is_strong_password "ABCDEFG1" = false ∧
    is_strong_password "Abcdefg" = false ∧
    is_strong_password "Ab1" = false := by
  refine ⟨?_, by decide, by decide, by decide, by decide, by decide⟩
  intro s
  simp [is_strong_password, List.any_eq_true, ge_iff_le, and_assoc]

/-- Claim C5: signup with an email already present in the users store
fails `Conflict` (HTTP 409) and leaves the stores unchanged, with no
assumption on the name, the email shape or the password strength: the
duplicate check precedes both validation checks. -/
theorem signup_duplicate_conflict (fs : FS) (newId otp : String) (now : ℚ)
    (u : UserCreate) (a : Account)
    (h : dlookup (load_data fs.usersFile) u.email = some a) :
    signup newId otp now u fs = (fs, .error .userAlreadyExists) ∧
    ApiErr.status .userAlreadyExists = 409 :=
  ⟨by simp [signup, h], rfl⟩

/-- Witness for C5 at a concrete input whose stored key would fail the
email check and whose password would fail the strength check. -/
theorem signup_duplicate_conflict_witness :
    signup "i" "o" 0 ⟨"Bob", "weird key", "x"⟩ fsWeird
      = (fsWeird, .error .userAlreadyExists) ∧
    is_valid_email "weird key" = false ∧
    is_strong_password "x" = false :=
  ⟨(signup_duplicate_conflict fsWeird "i" "o" 0 ⟨"Bob", "weird key", "x"⟩ bob
      (by simp [fsWeird, load_data, dlookup])).1,
    by decide, by decide⟩

/-- Claim C2, evaluated on the code at the failing inputs (code bug):
login's success and failure *conditions* are as claimed — unknown email,
unverified account, wrong password fail, and a verified account with the
exact stored password succeeds — but the code raises status 404 for the
unverified-account and wrong-password failures, the same status as the
unknown-email `NotFound`, instead of a distinct `Forbidden` kind. -/
theorem login_status_collision :
    login ⟨"alice@shop.com", "Abcdefg1"⟩ fsUnverified
      = (fsUnverified, .error .emailNotVerified) ∧
    login ⟨"alice@shop.com", "wrong"⟩ fsVerified
      = (fsVerified, .error .incorrectPassword) ∧
    login ⟨"bob@shop.com", "Abcdefg1"⟩ fsVerified
      = (fsVerified, .error .userNotFound) ∧
    login ⟨"alice@shop.com", "Abcdefg1"⟩ fsVerified
      = (fsVerified, .ok "Login successful. welcome Alice!") ∧
    ApiErr.status .emailNotVerified = 404 ∧
    ApiErr.status .incorrectPassword = 404 ∧
    ApiErr.status .userNotFound = 404 := by
  refine ⟨?_, ?_, ?_, ?_, rfl, rfl, rfl⟩ <;>
    simp [login, fsUnverified, fsVerified, alice, aliceVerified, load_data, dlookup]

/-- Claim C1 is false as stated: with the pending OTP issued at time 0
and `now = 299.5` (elapsed 299.5 s < 300 s), the code computes
`remaining = int(300 − elapsed) = 0`, while the claim demands
`ceil(300 − elapsed) = 1` and a value that is never ≤ 0. -/
theorem resend_throttled_ceil_counterexample :
    resend_otp "111111" (599/2) ⟨"a@b.c"⟩ fsA
      = (fsA, .error (.waitBeforeResend 0)) ∧
    ⌈(300:ℚ) - (599/2 - 0)⌉ = 1 ∧
    ¬ (0:Int) > 0 := by
  refine ⟨?_, ?_, by decide⟩
  · norm_num [resend_otp, fsA, otpStoreA, load_data, dlookup, pyInt]
  · rw [Int.ceil_eq_iff]
    norm_num

/-- Claim C1 (amended): when a pending OTP exists and less than 300
seconds have elapsed, resend fails `Throttled` (HTTP 403) with the
stores unchanged, carrying `remainingSeconds = int(300 − elapsed)`,
i.e. the *floor* of `300 − elapsed`; this value is never negative but
can be 0 (when `299 < elapsed < 300`). -/
theorem resend_throttled (fs : FS) (otp email : String) (now : ℚ)
    (entry : PendingOTP)
    (h₁ : dlookup (load_data fs.otpsFile) email = some entry)
    (h₂ : now - entry.timestamp < 300) :
    resend_otp otp now ⟨email⟩ fs
      = (fs, .error (.waitBeforeResend ⌊300 - (now - entry.timestamp)⌋)) ∧
    0 ≤ ⌊(300:ℚ) - (now - entry.timestamp)⌋ ∧
    ApiErr.status (.waitBeforeResend ⌊(300:ℚ) - (now - entry.timestamp)⌋) = 403 := by
  have h₀ : (0:ℚ) ≤ 300 - (now - entry.timestamp) := by linarith
  refine ⟨?_, Int.floor_nonneg.mpr h₀, rfl⟩
  simp only [resend_otp, h₁, if_pos h₂, pyInt_eq_floor h₀]

/-- Witness for C1 (amended) at elapsed = 100 s: remaining = 200. -/
theorem resend_throttled_witness :
    resend_otp "222222" 100 ⟨"a@b.c"⟩ fsA
      = (fsA, .error (.waitBeforeResend 200)) := by
  have h := (resend_throttled fsA "222222" "a@b.c" 100 ⟨"123456", 0⟩
    (by simp [fsA, otpStoreA, load_data, dlookup]) (by norm_num)).1
  rw [h]
  norm_num

/-- Claim C3: verify-otp with the stored code succeeds, deletes the
pending OTP, marks the account (when present) verified, and an
immediately repeated verify-otp fails `NotFound`. -/
theorem verify_otp_success (fs : FS) (email code : String)
    (entry : PendingOTP)
    (h₁ : dlookup (load_data fs.otpsFile) email = some entry)
    (h₂ : entry.otp = code) :
    ∃ fs₂ : FS,
      verify_otp ⟨email, code⟩ fs
        = (fs₂, .ok "OTP verified successfully. User is now verified.") ∧
      dlookup (load_data fs₂.otpsFile) email = none ∧
      (∀ u : Account, dlookup (load_data fs.usersFile) email = some u →
        dlookup (load_data fs₂.usersFile) email
          = some ⟨u.id, u.name, u.email, u.password, true⟩) ∧
      (verify_otp ⟨email, code⟩ fs₂).2 = .error .noOtpFound := by
  have hne : ¬ (entry.otp ≠ code) := by simp [h₂]
  cases hu : dlookup (load_data fs.usersFile) email with
  | none =>
      refine ⟨fs.saveOtps (derase (load_data fs.otpsFile) email), ?_, ?_, ?_, ?_⟩
      · simp only [verify_otp, h₁, if_neg hne, usersFile_saveOtps, hu]
      · simp only [otpsFile_saveOtps, load_data_valid, dlookup_derase_self]
      · intro u hu₂
        exact Option.noConfusion hu₂
      · simp only [verify_otp, otpsFile_saveOtps, load_data_valid,
          dlookup_derase_self]
  | some u =>
      refine ⟨(fs.saveOtps (derase (load_data fs.otpsFile) email)).saveUsers
          (dinsert (load_data fs.usersFile) email
            ⟨u.id, u.name, u.email, u.password, true⟩), ?_, ?_, ?_, ?_⟩
      · simp only [verify_otp, h₁, if_neg hne, usersFile_saveOtps, hu]
      · simp only [otpsFile_saveUsers, otpsFile_saveOtps, load_data_valid,
          dlookup_derase_self]
      · intro u₂ hu₂
        injection hu₂ with hu₃
        subst hu₃
        simp only [usersFile_saveUsers, load_data_valid, dlookup_dinsert_self]
      · simp only [verify_otp, otpsFile_saveUsers, otpsFile_saveOtps,
          load_data_valid, dlookup_derase_self]

/-- Witness for C3 on the post-signup fixture: verifying Alice's OTP
succeeds, clears her pending OTP, verifies her account, and the repeat
fails `NotFound`. -/
theorem verify_otp_success_witness :
    (verify_otp ⟨"alice@shop.com", "654321"⟩ fsSignup).2
      = .ok "OTP verified successfully. User is now verified." ∧
    dlookup (load_data
        (verify_otp ⟨"alice@shop.com", "654321"⟩ fsSignup).1.otpsFile)
      "alice@shop.com" = none ∧
    dlookup (load_data
        (verify_otp ⟨"alice@shop.com", "654321"⟩ fsSignup).1.usersFile)
      "alice@shop.com"
      = some ⟨"u-1", "Alice", "alice@shop.com", "Abcdefg1", true⟩ ∧
    (verify_otp ⟨"alice@shop.com", "654321"⟩
        (verify_otp ⟨"alice@shop.com", "654321"⟩ fsSignup).1).2
      = .error .noOtpFound := by
  obtain ⟨fs₂, h₁, h₂, h₃, h₄⟩ :=
    verify_otp_success fsSignup "alice@shop.com" "654321" ⟨"654321", 10⟩
      (by simp [fsSignup, load_data, dlookup]) rfl
  rw [h₁]
  exact ⟨rfl, h₂, h₃ alice (by simp [fsSignup, load_data, dlookup]), h₄⟩

/-- Claim C4 is false as stated: `generate_otp` may return the same
6-digit code again (digits are drawn independently with repeats
allowed), and when the regenerated code equals the previous one, the
previous code still verifies after the resend. Here the OTP issued at
time 0 is `123456`, 300 s have elapsed, the regenerated code is again
`123456`, and verify-otp with the previous code succeeds instead of
failing. -/
theorem resend_same_code_counterexample :
    (resend_otp "123456" 300 ⟨"a@b.c"⟩ fsA).2 = .ok "OTP resent. Check console." ∧
    (verify_otp ⟨"a@b.c", "123456"⟩ (resend_otp "123456" 300 ⟨"a@b.c"⟩ fsA).1).2
      = .ok "OTP verified successfully. User is now verified." := by
  have h : resend_otp "123456" 300 ⟨"a@b.c"⟩ fsA
      = (fsA.saveOtps [("a@b.c", ⟨"123456", 300⟩)], .ok "OTP resent. Check console.") := by
    norm_num [resend_otp, fsA, otpStoreA, load_data, dlookup, dinsert]
  rw [h]
  refine ⟨rfl, ?_⟩
  simp [verify_otp, fsA, FS.saveOtps, load_data, dlookup, derase]

/-- Claim C4 (amended): when a pending OTP exists and at least 300 s have
elapsed, resend succeeds and overwrites the stored entry with the freshly
generated code and the new issue time; *whenever the fresh code differs
from the previous one*, a subsequent verify-otp presenting the previous
code fails (`InvalidInput`). -/
theorem resend_after_cooldown (fs : FS) (otp email : String) (now : ℚ)
    (entry : PendingOTP)
    (h₁ : dlookup (load_data fs.otpsFile) email = some entry)
    (h₂ : ¬ now - entry.timestamp < 300) :
    resend_otp otp now ⟨email⟩ fs
      = (fs.saveOtps (dinsert (load_data fs.otpsFile) email ⟨otp, now⟩),
         .ok "OTP resent. Check console.") ∧
    dlookup (load_data (resend_otp otp now ⟨email⟩ fs).1.otpsFile) email
      = some ⟨otp, now⟩ ∧
    (otp ≠ entry.otp →
      (verify_otp ⟨email, entry.otp⟩ (resend_otp otp now ⟨email⟩ fs).1).2
        = .error .invalidOtp) := by
  have h : resend_otp otp now ⟨email⟩ fs
      = (fs.saveOtps (dinsert (load_data fs.otpsFile) email ⟨otp, now⟩),
         .ok "OTP resent. Check console.") := by
    simp only [resend_otp, h₁, if_neg h₂]
  refine ⟨h, ?_, ?_⟩
  · rw [h]
    simp only [otpsFile_saveOtps, load_data_valid, dlookup_dinsert_self]
  · intro hne
    rw [h]
    simp [verify_otp, otpsFile_saveOtps, load_data_valid, dlookup_dinsert_self, hne]

/-- Witness for C4 (amended) at a concrete input: 400 s after issue,
resending with fresh code `999999` succeeds, stores the new entry, and
the previous code `123456` no longer verifies. -/
theorem resend_after_cooldown_witness :
    (resend_otp "999999" 400 ⟨"a@b.c"⟩ fsA).2 = .ok "OTP resent. Check console." ∧
    dlookup (load_data (resend_otp "999999" 400 ⟨"a@b.c"⟩ fsA).1.otpsFile) "a@b.c"
      = some ⟨"999999", 400⟩ ∧
    (verify_otp ⟨"a@b.c", "123456"⟩ (resend_otp "999999" 400 ⟨"a@b.c"⟩ fsA).1).2
      = .error .invalidOtp := by
  obtain ⟨h₁, h₂, h₃⟩ :=
    resend_after_cooldown fsA "999999" "a@b.c" 400 ⟨"123456", 0⟩
      (by simp [fsA, otpStoreA, load_data, dlookup]) (by norm_num)
  exact ⟨by rw [h₁], h₂, h₃ (by decide)⟩

/-- Claim C7 (amended): `is_valid_email` accepts exactly the strings of
shape local-part@domain.tld over the regex's character classes — plus
the same shapes followed by one trailing newline, which Python's `$`
anchor also accepts. -/
theorem is_valid_email_iff_shape (s : String) :
    is_valid_email s = true ↔
      EmailShape s.data ∨
        ∃ cs : List Char, s.data = cs ++ ['\n'] ∧ EmailShape cs := by
  unfold is_valid_email pyDollarMatch
  rw [Bool.or_eq_true, Bool.and_eq_true, emailCore_eq_true_iff,
    emailCore_eq_true_iff]
  constructor
  · rintro (h | ⟨hl, hs⟩)
    · exact .inl h
    · refine .inr ⟨s.data.dropLast, ?_, hs⟩
      exact getLast?_split (by simpa using hl)
  · rintro (h | ⟨cs, hcs, hshape⟩)
    · exact .inl h
    · right
      constructor
      · simp [hcs, List.getLast?_concat]
      · rw [hcs, List.dropLast_concat]
        exact hshape

/-- Claim C7 is false as stated: `"a@b.c\n"` does not have the claimed
shape (its last character is a newline, not a word character), yet
`is_valid_email` returns true, because the Python `$` anchor also
matches just before a trailing newline. -/
theorem is_valid_email_newline_counterexample :
    is_valid_email "a@b.c\n" = true ∧ ¬ EmailShape ("a@b.c\n".data) := by
  refine ⟨by decide, ?_⟩
  intro h
  have h₁ := (emailCore_eq_true_iff ("a@b.c\n".data)).mpr h
  have h₂ : emailCore ("a@b.c\n".data) = false := by decide
  rw [h₂] at h₁
  exact Bool.false_ne_true h₁

/-- Claim C9: product-add fails `InvalidInput` (HTTP 400) exactly when
the submitted price is ≤ 0, leaving the stores unchanged; on success the
one new product (generated id plus the submitted fields) is appended at
the end of the product list, all prior products unchanged and in their
prior order. -/
theorem add_product_price_check (fs : FS) (newId : String) (p : ProductCreate) :
    ((add_product newId p fs).2 = .error .priceNotPositive ↔ p.price ≤ 0) ∧
    (p.price ≤ 0 → add_product newId p fs = (fs, .error .priceNotPositive)) ∧
    (0 < p.price →
      add_product newId p fs
        = (fs.saveProducts (load_products fs.productsFile
            ++ [⟨newId, p.name, p.price, p.categories, p.page, p.image⟩]),
           .ok ⟨newId, p.name, p.price, p.categories, p.page, p.image⟩)) ∧
    ApiErr.status .priceNotPositive = 400 := by
  by_cases hp : p.price ≤ 0
  · exact ⟨by simp [add_product, hp],
      fun _ => by simp [add_product, hp],
      fun h₀ => absurd hp (not_le.mpr h₀), rfl⟩
  · exact ⟨by simp [add_product, hp],
      fun h => absurd h hp,
      fun _ => by simp [add_product, hp], rfl⟩

/-- Witness for C9: price 9.99 appends the product to the empty store;
price 0 fails with the stores unchanged. -/
theorem add_product_price_check_witness :
    add_product "p-1" ⟨"Rose", 999/100, "flowers", "page1", "rose.png"⟩ fsA
      = (fsA.saveProducts [⟨"p-1", "Rose", 999/100, "flowers", "page1", "rose.png"⟩],
         .ok ⟨"p-1", "Rose", 999/100, "flowers", "page1", "rose.png"⟩) ∧
    add_product "p-2" ⟨"Rose", 0, "flowers", "page1", "rose.png"⟩ fsA
      = (fsA, .error .priceNotPositive) := by
  constructor
  · have h := (add_product_price_check fsA "p-1"
      ⟨"Rose", 999/100, "flowers", "page1", "rose.png"⟩).2.2.1 (by norm_num)
    rw [h]
    simp [fsA, load_products]
  · exact (add_product_price_check fsA "p-2"
      ⟨"Rose", 0, "flowers", "page1", "rose.png"⟩).2.1 (by norm_num)

/-- Claim C10: whenever signup, verify-otp, resend-otp, login or
product-add fails with any error, the three stores are exactly as
before the call — every raise happens before any save (login performs
no save at all, so its state is always unchanged). -/
theorem errors_leave_stores_unchanged :
    (∀ (newId otp : String) (now : ℚ) (u : UserCreate) (fs : FS) (e : ApiErr),
      (signup newId otp now u fs).2 = .error e → (signup newId otp now u fs).1 = fs) ∧
    (∀ (d : OTPVerify) (fs : FS) (e : ApiErr),
      (verify_otp d fs).2 = .error e → (verify_otp d fs).1 = fs) ∧
    (∀ (otp : String) (now : ℚ) (d : ResendRequest) (fs : FS) (e : ApiErr),
      (resend_otp otp now d fs).2 = .error e → (resend_otp otp now d fs).1 = fs) ∧
    (∀ (d : UserLogin) (fs : FS), (login d fs).1 = fs) ∧
    (∀ (newId : String) (p : ProductCreate) (fs : FS) (e : ApiErr),
      (add_product newId p fs).2 = .error e → (add_product newId p fs).1 = fs) := by
  refine ⟨?_, ?_, ?_, ?_, ?_⟩
  · intro newId otp now u fs e
    simp only [signup]
    split
    · intro _; rfl
    · split
      · intro _; rfl
      · split
        · intro _; rfl
        · intro h; simp at h
  · intro d fs e
    simp only [verify_otp]
    split
    · intro _; rfl
    · split
      · intro _; rfl
      · split
        · intro h; simp at h
        · intro h; simp at h
  · intro otp now d fs e
    simp only [resend_otp]
    split
    · intro _; rfl
    · split
      · intro _; rfl
      · intro h; simp at h
  · intro d fs
    simp only [login]
    split
    · rfl
    · split
      · rfl
      · split
        · rfl
        · rfl
  · intro newId p fs e
    simp only [add_product]
    split
    · intro _; rfl
    · intro h; simp at h

/-- Witness for C10: one concrete failing call per operation, each
leaving the fixture state untouched. -/
theorem errors_leave_stores_unchanged_witness :
    (signup "i" "o" 0 ⟨"Bob", "bad", "x"⟩ fsA).1 = fsA ∧
    (verify_otp ⟨"nobody@x.y", "1"⟩ fsA).1 = fsA ∧
    (resend_otp "o" 1 ⟨"nobody@x.y"⟩ fsA).1 = fsA ∧
    (login ⟨"nobody@x.y", "p"⟩ fsA).1 = fsA ∧
    (add_product "i" ⟨"Rose", 0, "c", "p", "img"⟩ fsA).1 = fsA :=
  ⟨errors_leave_stores_unchanged.1 "i" "o" 0 ⟨"Bob", "bad", "x"⟩ fsA
      .invalidEmail (by
        have hbad : is_valid_email "bad" = false := by decide
        simp [signup, fsA, load_data, dlookup, hbad]),
   errors_leave_stores_unchanged.2.1 ⟨"nobody@x.y", "1"⟩ fsA
      .noOtpFound (by simp [verify_otp, fsA, otpStoreA, load_data, dlookup]),
   errors_leave_stores_unchanged.2.2.1 "o" 1 ⟨"nobody@x.y"⟩ fsA
      .noSignupFound (by simp [resend_otp, fsA, otpStoreA, load_data, dlookup]),
   errors_leave_stores_unchanged.2.2.2.1 ⟨"nobody@x.y", "p"⟩ fsA,
   errors_leave_stores_unchanged.2.2.2.2 "i" ⟨"Rose", 0, "c", "p", "img"⟩ fsA
      .priceNotPositive (by simp [add_product])⟩
